import Mathlib

/-!
Shallow embedding of the Sentryield strategy-engine sources:
guards (`bot/src/services/guards.ts`), yield math and the live price oracle
(`LivePriceOracle`), the Dex1 adapter (`bot/src/adapters/dex1.adapter.ts`)
and the migration-report checks (`bot/src/migration-report.ts`).

JavaScript numbers are embedded as rationals (`ℚ`); `Math.round` is
round-half-up (`⌊x + 1/2⌋`), matching JS semantics on the values in scope.
NaN and the infinities are outside the `ℚ` embedding; the one place the
source produces an infinity (`estimatePaybackHours`) is modelled with an
explicit inductive result type.  `bigint` values are embedded as `ℤ`.
Code that throws is embedded with `Except String`.
-/

namespace Sentryield

/-- JS `Math.round` (round half toward positive infinity) on rationals. -/
def jsRound (x : ℚ) : ℤ := ⌊x + 1 / 2⌋

/-- Embedding of `Math.round(...)` used where the source keeps the result
as a JS number: the rounded integer, back in `ℚ`. -/
def jsRoundQ (x : ℚ) : ℚ := (jsRound x : ℚ)

/-! ### Data model

`bot/src/types.ts` is not among the provided sources; the record shapes
below are modelled from the spec (§3 DATA MODEL) and from the fields the
provided sources actually access. -/

/-- Modelled from the spec: `GuardResult` is
`{triggered: bool, reason: enum, details: optional string}` (types.ts is
not among the provided sources). -/
structure GuardResult where
  triggered : Bool
  reason : String
  details : Option String
deriving Repr, DecidableEq

/-- Modelled from the spec: the fields of `PoolSnapshot` that the guard
engine reads (`poolId`, `incentiveAprBps`, `netApyBps`, `slippageBps`). -/
structure PoolSnapshot where
  poolId : String
  incentiveAprBps : ℚ
  netApyBps : ℚ
  slippageBps : ℚ
deriving Repr, DecidableEq

/-! ### Guard engine (`bot/src/services/guards.ts`) -/

/-- Source `deviationBpsFromDollar`: `Math.round(Math.abs(price - 1) * 10_000)`. -/
def deviationBpsFromDollar (price : ℚ) : ℚ :=
  jsRoundQ (|price - 1| * 10000)

/-- Source `depegGuard`.  The `Record<string, number>` argument is embedded
as an association list in `Object.entries` order. -/
def depegGuard (stablePricesUsd : List (String × ℚ)) (maxDeviationBps : ℚ) :
    GuardResult :=
  if stablePricesUsd.isEmpty then
    { triggered := true
      reason := "DEPEG_GUARD_TRIGGERED"
      details := some "No stable prices available." }
  else
    let deviations := stablePricesUsd.map
      (fun entry => (entry.1, deviationBpsFromDollar entry.2))
    let triggered := deviations.any (fun item => decide (maxDeviationBps < item.2))
    if triggered then
      { triggered := true
        reason := "DEPEG_GUARD_TRIGGERED"
        details := some (String.intercalate ", "
          (deviations.map
            (fun item => item.1 ++ " deviation=" ++ toString item.2 ++ "bps"))) }
    else
      { triggered := false, reason := "DEPEG_GUARD_OK", details := none }

/-- Source `slippageGuard`. -/
def slippageGuard (snapshot : PoolSnapshot) (maxPriceImpactBps : ℚ) : GuardResult :=
  if maxPriceImpactBps < snapshot.slippageBps then
    { triggered := true
      reason := "SLIPPAGE_GUARD_TRIGGERED"
      details := some ("pool=" ++ snapshot.poolId ++ ", impact="
        ++ toString snapshot.slippageBps ++ "bps, max="
        ++ toString maxPriceImpactBps ++ "bps") }
  else
    { triggered := false, reason := "SLIPPAGE_GUARD_OK", details := none }

/-- Source `aprCliffGuard`; the two possibly-missing snapshots are `Option`s. -/
def aprCliffGuard (currentSnapshot : Option PoolSnapshot)
    (previousSnapshot : Option PoolSnapshot) (minDropBps : ℚ) : GuardResult :=
  match currentSnapshot, previousSnapshot with
  | none, _ =>
    { triggered := false, reason := "APR_CLIFF_GUARD_NOT_ENOUGH_DATA", details := none }
  | some _, none =>
    { triggered := false, reason := "APR_CLIFF_GUARD_NOT_ENOUGH_DATA", details := none }
  | some currentSnap, some previousSnap =>
    let previousIncentive := previousSnap.incentiveAprBps
    if previousIncentive ≤ 0 then
      { triggered := false, reason := "APR_CLIFF_GUARD_PREV_ZERO", details := none }
    else
      let drop := previousIncentive - currentSnap.incentiveAprBps
      let dropBps := jsRoundQ (drop / previousIncentive * 10000)
      if minDropBps < dropBps then
        { triggered := true
          reason := "APR_CLIFF_GUARD_TRIGGERED"
          details := some ("pool=" ++ currentSnap.poolId ++ ", incentiveDrop="
            ++ toString dropBps ++ "bps") }
      else
        { triggered := false, reason := "APR_CLIFF_GUARD_OK", details := none }

/-! ### Yield math (`estimatePaybackHours` and friends) -/

/-- Result type for `estimatePaybackHours`: the source returns the JS value
`Number.POSITIVE_INFINITY` on the degenerate branch, which has no `ℚ`
counterpart. -/
inductive PaybackHours where
  | posInfinity : PaybackHours
  | finite (hours : ℚ) : PaybackHours
deriving Repr, DecidableEq

/-- Source `estimatePaybackHours`: `POSITIVE_INFINITY` if `deltaApyBps <= 0`,
else `(costBps / deltaApyBps) * 365 * 24`. -/
def estimatePaybackHours (costBps deltaApyBps : ℚ) : PaybackHours :=
  if deltaApyBps ≤ 0 then .posInfinity
  else .finite (costBps / deltaApyBps * 365 * 24)

/-- Source `computeIncentiveAprBps`. -/
def computeIncentiveAprBps (rewardRatePerSecond rewardTokenPriceUsd tvlUsd : ℚ) : ℚ :=
  if tvlUsd ≤ 0 then 0
  else
    let annualRewardsUsd := rewardRatePerSecond * (365 * 24 * 60 * 60) * rewardTokenPriceUsd
    max 0 (jsRoundQ (annualRewardsUsd / tvlUsd * 10000))

/-- Source `computeNetApyBps`. -/
def computeNetApyBps (baseApyBps incentiveAprBps protocolFeeBps : ℚ) : ℚ :=
  max 0 (baseApyBps + incentiveAprBps - protocolFeeBps)

/-! ### Dex1 adapter (`bot/src/adapters/dex1.adapter.ts`)

Addresses and hex data are embedded as strings; `bigint` amounts as `ℤ`.
A method that throws is embedded as `Except.error` carrying the message. -/

/-- Modelled from the spec: the `PoolConfig` fields the Dex1 adapter reads
(types.ts is not among the provided sources). -/
structure PoolConfig where
  id : String
  protocol : String
  pair : String
  target : String
  pool : String
  tokenIn : String
  lpToken : String
deriving Repr, DecidableEq

/-- Modelled from the spec: a point-in-time on-chain read of a venue (TVL
and reserves); never constructed by the disabled adapter. -/
structure PoolOnChainState where
  tvlUsd : ℚ
  reserveIn : ℤ
  reserveOut : ℤ
deriving Repr, DecidableEq

/-- Modelled from the spec: input record of `buildEnterRequest`
(`adapter.interface.ts` is not among the provided sources; fields are the
ones `dex1.adapter.ts` reads). -/
structure BuildEnterRequestInput where
  pool : PoolConfig
  amountIn : ℤ
  minOut : ℤ
  deadline : ℤ
  netApyBps : ℚ
  intendedHoldSeconds : ℚ
deriving Repr, DecidableEq

/-- Modelled from the spec: input record of `buildExitRequest`. -/
structure BuildExitRequestInput where
  pool : PoolConfig
  tokenOut : String
  amountIn : ℤ
  minOut : ℤ
  deadline : ℤ
deriving Repr, DecidableEq

/-- Modelled from the spec: the venue-specific enter payload, with exactly
the fields the Dex1 adapter populates. -/
structure VaultEnterRequest where
  target : String
  pool : String
  tokenIn : String
  lpToken : String
  amountIn : ℤ
  minOut : ℤ
  deadline : ℤ
  data : String
  pair : String
  protocol : String
  netApyBps : ℚ
  intendedHoldSeconds : ℚ
deriving Repr, DecidableEq

/-- Modelled from the spec: the venue-specific exit payload. -/
structure VaultExitRequest where
  target : String
  pool : String
  lpToken : String
  tokenOut : String
  amountIn : ℤ
  minOut : ℤ
  deadline : ℤ
  data : String
  pair : String
  protocol : String
deriving Repr, DecidableEq

/-- The error message every disabled Dex1 method throws. -/
def dex1DisabledMessage : String := "Dex1Adapter is disabled in live runtime."

/-- Source `Dex1Adapter.fetchPoolState`: always throws. -/
def dex1FetchPoolState (pool : PoolConfig) : Except String PoolOnChainState :=
  .error dex1DisabledMessage

/-- Source `Dex1Adapter.estimatePriceImpactBps`: always throws. -/
def dex1EstimatePriceImpactBps (pool : PoolConfig) (amountIn : ℤ) :
    Except String ℚ :=
  .error dex1DisabledMessage

/-- Source `Dex1Adapter.estimateRotationCostBps`: always throws. -/
def dex1EstimateRotationCostBps (fromPool toPool : PoolConfig) (amountIn : ℤ) :
    Except String ℚ :=
  .error dex1DisabledMessage

/-- Source `Dex1Adapter.buildEnterRequest`: returns a built request (it does
not throw). -/
def dex1BuildEnterRequest (input : BuildEnterRequestInput) :
    Except String VaultEnterRequest :=
  .ok
    { target := input.pool.target
      pool := input.pool.pool
      tokenIn := input.pool.tokenIn
      lpToken := input.pool.lpToken
      amountIn := input.amountIn
      minOut := input.minOut
      deadline := input.deadline
      data := "0x"
      pair := input.pool.pair
      protocol := input.pool.protocol
      netApyBps := input.netApyBps
      intendedHoldSeconds := input.intendedHoldSeconds }

/-- Source `Dex1Adapter.buildExitRequest`: returns a built request (it does
not throw). -/
def dex1BuildExitRequest (input : BuildExitRequestInput) :
    Except String VaultExitRequest :=
  .ok
    { target := input.pool.target
      pool := input.pool.pool
      lpToken := input.pool.lpToken
      tokenOut := input.tokenOut
      amountIn := input.amountIn
      minOut := input.minOut
      deadline := input.deadline
      data := "0x"
      pair := input.pool.pair
      protocol := input.pool.protocol }

/-- A sample pool configuration used to exercise the Dex1 adapter. -/
def dex1SamplePool : PoolConfig :=
  { id := "dex1-usdc-mon"
    protocol := "dex1"
    pair := "USDC/MON"
    target := "0x1111111111111111111111111111111111111111"
    pool := "0x2222222222222222222222222222222222222222"
    tokenIn := "0x3333333333333333333333333333333333333333"
    lpToken := "0x4444444444444444444444444444444444444444" }

/-! ### Live price oracle (`LivePriceOracle`)

The oracle is a stateful class; it is embedded as explicit state passing.
Each public call becomes a step function taking the state, the current time
in milliseconds (`Date.now()` is read once per step), and the outcome the
upstream transport would produce if a request were issued.  The step returns
the call's result, the next state, and whether an upstream HTTP request was
actually issued.  `console.warn` output is not modelled; the warn-cooldown
bookkeeping map is. -/

/-- Symbol normalisation used throughout: `symbol.trim().toUpperCase()`,
modelled structurally over the string's character list (whitespace stripped
from both ends, then uppercased; ASCII semantics). -/
def normalizeSymbol (s : String) : String :=
  ⟨(((s.data.dropWhile Char.isWhitespace).reverse.dropWhile
      Char.isWhitespace).reverse).map Char.toUpper⟩

/-- First-occurrence deduplication, as JS `[...new Set(xs)]`. -/
def jsSetDedup : List String → List String
  | [] => []
  | x :: xs => x :: (jsSetDedup xs).filter (fun y => y != x)

/-- Lookup in an association-list embedding of a JS `Map` / `Record`. -/
def mapLookup {α : Type} (m : List (String × α)) (k : String) : Option α :=
  match m with
  | [] => none
  | (k0, v) :: rest => if k0 = k then some v else mapLookup rest k

/-- JS `Map.set` semantics: overwrite in place if the key exists, else append. -/
def mapSet {α : Type} (m : List (String × α)) (k : String) (v : α) :
    List (String × α) :=
  match m with
  | [] => [(k, v)]
  | (k0, v0) :: rest => if k0 = k then (k, v) :: rest else (k0, v0) :: mapSet rest k v

/-- Source `LivePriceOracleConfig`. -/
structure LivePriceOracleConfig where
  baseUrl : String
  stableSymbols : List String
  coingeckoIdBySymbol : List (String × String)
  timeoutMs : ℚ
  cacheTtlMs : ℚ
  rateLimitCooldownMs : Option ℚ
  staleFallbackTtlMs : Option ℚ
  warningCooldownMs : Option ℚ

/-- Source `CacheEntry`. -/
structure CacheEntry where
  value : ℚ
  expiresAt : ℚ
deriving Repr, DecidableEq

/-- Source `PriceOracleTelemetry`. -/
structure PriceOracleTelemetry where
  cacheFreshHits : ℕ
  staleFallbackHits : ℕ
  stableFallbackHits : ℕ
  networkFetchSuccesses : ℕ
  fetchFailures : ℕ
deriving Repr, DecidableEq

/-- The mutable state of a `LivePriceOracle` instance, together with the
constructor-resolved cooldown and TTL fields. -/
structure OracleState where
  config : LivePriceOracleConfig
  rateLimitCooldownMs : ℚ
  staleFallbackTtlMs : ℚ
  warningCooldownMs : ℚ
  cache : List (String × CacheEntry)
  rateLimitedUntilMs : ℚ
  warningLastLoggedAt : List (String × ℚ)
  telemetry : PriceOracleTelemetry

/-- Source `constructor(config)`: resolves the cooldown and TTL defaults and
starts with an empty cache, no rate-limit window and zeroed telemetry. -/
def mkLivePriceOracle (config : LivePriceOracleConfig) : OracleState :=
  { config := config
    rateLimitCooldownMs := max 1000 (config.rateLimitCooldownMs.getD 300000)
    staleFallbackTtlMs := max config.cacheTtlMs (config.staleFallbackTtlMs.getD 300000)
    warningCooldownMs := max 0 (config.warningCooldownMs.getD 300000)
    cache := []
    rateLimitedUntilMs := 0
    warningLastLoggedAt := []
    telemetry := ⟨0, 0, 0, 0, 0⟩ }

/-- Telemetry bump for `cacheFreshHits += 1`. -/
def bumpCacheFreshHits (st : OracleState) : OracleState :=
  { st with telemetry :=
      { st.telemetry with cacheFreshHits := st.telemetry.cacheFreshHits + 1 } }

/-- Telemetry bump for `staleFallbackHits += 1`. -/
def bumpStaleFallbackHits (st : OracleState) : OracleState :=
  { st with telemetry :=
      { st.telemetry with staleFallbackHits := st.telemetry.staleFallbackHits + 1 } }

/-- Telemetry bump for `stableFallbackHits += 1`. -/
def bumpStableFallbackHits (st : OracleState) : OracleState :=
  { st with telemetry :=
      { st.telemetry with stableFallbackHits := st.telemetry.stableFallbackHits + 1 } }

/-- Telemetry bump for `networkFetchSuccesses += 1`. -/
def bumpNetworkFetchSuccesses (st : OracleState) : OracleState :=
  { st with telemetry :=
      { st.telemetry with networkFetchSuccesses := st.telemetry.networkFetchSuccesses + 1 } }

/-- Telemetry bump for `fetchFailures += 1`. -/
def bumpFetchFailures (st : OracleState) : OracleState :=
  { st with telemetry :=
      { st.telemetry with fetchFailures := st.telemetry.fetchFailures + 1 } }

/-- What the upstream transport would produce for one issued request: either
a transport-level failure (rejection, abort/timeout, or a JSON body that
fails to parse on an OK response), or an HTTP response with a status code
and the parsed `id -> {usd?}` body. NaN and infinite JS payload values are
outside the `ℚ` embedding. -/
inductive UpstreamOutcome where
  | netError (msg : String) : UpstreamOutcome
  | respond (status : ℕ) (body : Except String (List (String × Option ℚ))) : UpstreamOutcome

/-- Result of one oracle step: the call's result, the next oracle state, and
whether an upstream HTTP request was issued. -/
structure OracleStep (α : Type) where
  result : Except String α
  state : OracleState
  requested : Bool

/-- Number of whole seconds the source reports as remaining in the
rate-limit cooldown window. -/
def cooldownRemainingSeconds (rateLimitedUntilMs nowMs : ℚ) : ℤ :=
  max 1 ⌈(rateLimitedUntilMs - nowMs) / 1000⌉

/-- The short-circuit error thrown while the rate-limit cooldown is active. -/
def cooldownActiveMessage (rateLimitedUntilMs nowMs : ℚ) : String :=
  "CoinGecko rate-limit cooldown active ("
    ++ toString (cooldownRemainingSeconds rateLimitedUntilMs nowMs) ++ "s remaining)."

/-- Maps each symbol to its CoinGecko id, throwing on the first symbol with
a missing (or empty, which is falsy) mapping. -/
def lookupCoingeckoIds (mapping : List (String × String)) :
    List String → Except String (List String)
  | [] => .ok []
  | s :: rest =>
    match mapLookup mapping s with
    | none => .error ("Missing CoinGecko id mapping for symbol: " ++ s)
    | some id =>
      if id = "" then .error ("Missing CoinGecko id mapping for symbol: " ++ s)
      else (lookupCoingeckoIds mapping rest).map (fun ids => id :: ids)

/-- The error thrown for an absent or non-positive USD price in the payload. -/
def invalidPriceMessage (symbol id : String) : String :=
  "Invalid CoinGecko USD price for " ++ symbol ++ " (" ++ id ++ ")."

/-- Walks the symbol/id pairs over the response payload, throwing at the
first absent or non-positive `usd` value (per-symbol validation loop of
`fetchPrices`). -/
def parseSimplePricePayload :
    List String → List String → List (String × Option ℚ) →
      Except String (List (String × ℚ))
  | [], _, _ => .ok []
  | _ :: _, [], _ => .ok []
  | symbol :: symbols, id :: ids, payload =>
    match (mapLookup payload id).join with
    | none => .error (invalidPriceMessage symbol id)
    | some value =>
      if value ≤ 0 then .error (invalidPriceMessage symbol id)
      else (parseSimplePricePayload symbols ids payload).map
        (fun result => (symbol, value) :: result)

/-- Source `LivePriceOracle.fetchPrices`: dedup/normalise the symbols, throw
on an empty set, short-circuit while the rate-limit cooldown is active, map
symbols to ids, then issue the request; a 429 response arms the cooldown
window.  The `requested` flag records whether the upstream request was
issued. -/
def fetchPrices (st : OracleState) (nowMs : ℚ) (symbols : List String)
    (upstream : UpstreamOutcome) : OracleStep (List (String × ℚ)) :=
  let uniqueSymbols := jsSetDedup (symbols.map normalizeSymbol)
  if uniqueSymbols.isEmpty then
    ⟨.error "Price fetch requested with empty symbol set.", st, false⟩
  else if nowMs < st.rateLimitedUntilMs then
    ⟨.error (cooldownActiveMessage st.rateLimitedUntilMs nowMs), st, false⟩
  else
    match lookupCoingeckoIds st.config.coingeckoIdBySymbol uniqueSymbols with
    | .error e => ⟨.error e, st, false⟩
    | .ok ids =>
      match upstream with
      | .netError msg => ⟨.error msg, st, true⟩
      | .respond status body =>
        if 200 ≤ status ∧ status ≤ 299 then
          match body with
          | .error e => ⟨.error e, st, true⟩
          | .ok payload =>
            match parseSimplePricePayload uniqueSymbols ids payload with
            | .error e => ⟨.error e, st, true⟩
            | .ok result => ⟨.ok result, st, true⟩
        else
          let st1 :=
            if status = 429 then
              { st with rateLimitedUntilMs := nowMs + st.rateLimitCooldownMs }
            else st
          ⟨.error ("CoinGecko returned " ++ toString status), st1, true⟩

/-- Source `readCachedValue`: a missing entry reads as `null`; an expired
entry reads as `null` unless `allowStale`. -/
def readCachedValue (cache : List (String × CacheEntry)) (symbol : String)
    (allowStale : Bool) (nowMs : ℚ) : Option ℚ :=
  match mapLookup cache (normalizeSymbol symbol) with
  | none => none
  | some cached =>
    if allowStale = false ∧ cached.expiresAt ≤ nowMs then none else some cached.value

/-- Source `writeCache`: arms the entry with `expiresAt = now + ttlMs`. -/
def writeCache (st : OracleState) (symbol : String) (value : ℚ) (nowMs ttlMs : ℚ) :
    OracleState :=
  { st with cache := mapSet st.cache (normalizeSymbol symbol) ⟨value, nowMs + ttlMs⟩ }

/-- Source `readCachedSnapshot`: all-or-nothing read across the symbols. -/
def readCachedSnapshot (cache : List (String × CacheEntry)) (symbols : List String)
    (allowStale : Bool) (nowMs : ℚ) : Option (List (String × ℚ)) :=
  match symbols with
  | [] => some []
  | s :: rest =>
    match readCachedValue cache s allowStale nowMs with
    | none => none
    | some v => (readCachedSnapshot cache rest allowStale nowMs).map (fun r => (s, v) :: r)

/-- Source `writeCacheSnapshot`: writes every entry with the same TTL,
left to right (the source's `for ... of Object.entries(values)` loop). -/
def writeCacheSnapshot (st : OracleState) (values : List (String × ℚ))
    (nowMs ttlMs : ℚ) : OracleState :=
  match values with
  | [] => st
  | entry :: rest =>
    writeCacheSnapshot (writeCache st entry.1 entry.2 nowMs ttlMs) rest nowMs ttlMs

/-- Source `warnWithCooldown`: only the per-key last-logged bookkeeping is
modelled (the log line itself is I/O). -/
def warnWithCooldown (st : OracleState) (nowMs : ℚ) (key : String) : OracleState :=
  if st.warningCooldownMs ≤ 0 then st
  else
    let lastLoggedAt := (mapLookup st.warningLastLoggedAt key).getD 0
    if nowMs - lastLoggedAt < st.warningCooldownMs then st
    else { st with warningLastLoggedAt := mapSet st.warningLastLoggedAt key nowMs }

/-- Source `normalizeSymbols`. -/
def normalizeSymbols (symbols : List String) : List String :=
  jsSetDedup (symbols.map normalizeSymbol)

/-- The oracle's configured stable symbols after normalisation, as
`getStablePricesUsd` computes them. -/
def stableSymbolsOf (st : OracleState) : List String :=
  normalizeSymbols st.config.stableSymbols

/-- Source `getPriceUsd`: fresh cache hit, else fetch; on any failure inside
the `try` block, fall back to a stale cached value (re-armed with the stale
TTL) when one exists, else rethrow. -/
def getPriceUsd (st : OracleState) (nowMs : ℚ) (symbol : String)
    (upstream : UpstreamOutcome) : OracleStep ℚ :=
  let normalized := normalizeSymbol symbol
  match readCachedValue st.cache normalized false nowMs with
  | some freshCached => ⟨.ok freshCached, bumpCacheFreshHits st, false⟩
  | none =>
    let step := fetchPrices st nowMs [normalized] upstream
    let tryOutcome : Except String (ℚ × OracleState) :=
      match step.result with
      | .error e => .error e
      | .ok values =>
        match mapLookup values normalized with
        | none => .error ("Live price unavailable for " ++ normalized ++ ".")
        | some value =>
          .ok (value, bumpNetworkFetchSuccesses
            (writeCache step.state normalized value nowMs step.state.config.cacheTtlMs))
    match tryOutcome with
    | .ok (value, st1) => ⟨.ok value, st1, step.requested⟩
    | .error e =>
      let st1 := bumpFetchFailures step.state
      match readCachedValue st1.cache normalized true nowMs with
      | some staleCached =>
        let st2 := bumpStaleFallbackHits st1
        let st3 := writeCache st2 normalized staleCached nowMs st2.staleFallbackTtlMs
        let st4 := warnWithCooldown st3 nowMs ("single:" ++ normalized)
        ⟨.ok staleCached, st4, step.requested⟩
      | none => ⟨.error e, st1, step.requested⟩

/-- Source `getStablePricesUsd`: fresh snapshot hit, else fetch; on failure,
a stale snapshot (if every stable symbol has some cached entry) is returned
and re-armed, else the hard fallback maps every stable symbol to 1. -/
def getStablePricesUsd (st : OracleState) (nowMs : ℚ) (upstream : UpstreamOutcome) :
    OracleStep (List (String × ℚ)) :=
  let stableSymbols := stableSymbolsOf st
  match readCachedSnapshot st.cache stableSymbols false nowMs with
  | some freshCached => ⟨.ok freshCached, bumpCacheFreshHits st, false⟩
  | none =>
    let step := fetchPrices st nowMs stableSymbols upstream
    match step.result with
    | .ok values =>
      let st1 := bumpNetworkFetchSuccesses
        (writeCacheSnapshot step.state values nowMs step.state.config.cacheTtlMs)
      ⟨.ok values, st1, step.requested⟩
    | .error _ =>
      let st1 := bumpFetchFailures step.state
      match readCachedSnapshot st1.cache stableSymbols true nowMs with
      | some fallback =>
        let st2 := bumpStableFallbackHits st1
        let st3 := writeCacheSnapshot st2 fallback nowMs st2.staleFallbackTtlMs
        let st4 := warnWithCooldown st3 nowMs "stable:fallback"
        ⟨.ok fallback, st4, step.requested⟩
      | none =>
        let hardFallback := stableSymbols.map (fun symbol => (symbol, (1 : ℚ)))
        let st2 := bumpStableFallbackHits st1
        let st3 := writeCacheSnapshot st2 hardFallback nowMs st2.staleFallbackTtlMs
        let st4 := warnWithCooldown st3 nowMs "stable:hard-fallback"
        ⟨.ok hardFallback, st4, step.requested⟩

/-- Source `getTelemetrySnapshot`: a read-only copy of the counters. -/
def getTelemetrySnapshot (st : OracleState) : PriceOracleTelemetry :=
  st.telemetry

/-- A sample oracle configuration used by concrete witnesses: two stable
symbols, complete id mappings, a 60s cache TTL and defaulted cooldowns. -/
def sampleOracleConfig : LivePriceOracleConfig :=
  { baseUrl := "https://api.coingecko.com/api/v3"
    stableSymbols := ["USDC", "USDT"]
    coingeckoIdBySymbol := [("USDC", "usd-coin"), ("USDT", "tether"), ("MON", "monad")]
    timeoutMs := 8000
    cacheTtlMs := 60000
    rateLimitCooldownMs := none
    staleFallbackTtlMs := none
    warningCooldownMs := none }

/-- A sample oracle state holding one expired USDC entry (value 2, expired
at 500ms). -/
def sampleStaleOracleState : OracleState :=
  { mkLivePriceOracle sampleOracleConfig with cache := [("USDC", ⟨2, 500⟩)] }

/-- A sample oracle state where USDC has a cached price but USDT has no
entry at all. -/
def samplePartialOracleState : OracleState :=
  { mkLivePriceOracle sampleOracleConfig with cache := [("USDC", ⟨98, 2000⟩)] }

/-- A sample oracle state where both stable symbols hold expired entries
with distinct non-dollar values. -/
def sampleExpiredPairOracleState : OracleState :=
  { mkLivePriceOracle sampleOracleConfig with
      cache := [("USDC", ⟨2, 500⟩), ("USDT", ⟨3, 500⟩)] }

/-! ### Migration status monitor (`bot/src/migration-report.ts`)

The report builder is embedded from the point where the on-chain vault
snapshots have been read: the two `VaultSnapshot` values enter as inputs
(their RPC reads are plain data acquisition), while the optional bot status
endpoints enter as a configured URL together with the HTTP outcome the
transport would produce.  Note that `readStateEndpoint` itself has no
try/catch around its `fetch`: a transport-level rejection propagates and is
modelled as `Except.error`, while `response.json()` failures are caught
(`.catch(() => null)`) and modelled as an absent payload. -/

/-- Source `CheckStatus`. -/
inductive CheckStatus where
  | PASS : CheckStatus
  | WARN : CheckStatus
  | FAIL : CheckStatus
deriving Repr, DecidableEq

/-- Source `CheckRow`. -/
structure CheckRow where
  id : String
  status : CheckStatus
  detail : String
deriving Repr, DecidableEq

/-- Source `VaultSnapshot`, restricted to the fields `main`'s checks read
(the per-pool balance rows and formatted strings are presentational). -/
structure VaultSnapshot where
  address : String
  usdcBalanceRaw : ℤ
  hasLpExposure : Bool
  supportsUserFlow : Bool
  depositToken : Option String
  totalUserSharesRaw : Option ℤ
  hasOpenLpPosition : Option Bool
deriving Repr, DecidableEq

/-- The fields of a status endpoint's parsed JSON body that
`readStateEndpoint` distils: each is `none` when absent or of the wrong
type, and the three counters are the array lengths when the arrays exist. -/
structure StateJson where
  healthy : Option Bool
  ready : Option Bool
  reason : Option String
  snapshots : Option ℕ
  decisions : Option ℕ
  tweets : Option ℕ
deriving Repr, DecidableEq

/-- Source `EndpointSnapshot`. -/
structure EndpointSnapshot where
  url : String
  httpStatus : ℕ
  healthy : Option Bool
  ready : Option Bool
  reason : Option String
  snapshots : Option ℕ
  decisions : Option ℕ
  tweets : Option ℕ
deriving Repr, DecidableEq

/-- Outcome of the status-endpoint `fetch`: a transport-level rejection, or
an HTTP response whose body parsed to a record (`some`) or not (`none`,
covering both JSON parse failure and a non-object body). -/
inductive HttpOutcome where
  | netError (msg : String) : HttpOutcome
  | respond (status : ℕ) (payload : Option StateJson) : HttpOutcome

/-- Source `readStateEndpoint`: the `fetch` rejection is uncaught and
propagates; an HTTP response of any status yields a snapshot. -/
def readStateEndpoint (url : String) (outcome : HttpOutcome) :
    Except String EndpointSnapshot :=
  match outcome with
  | .netError msg => .error msg
  | .respond status payload =>
    .ok { url := url
          httpStatus := status
          healthy := payload.bind (fun p => p.healthy)
          ready := payload.bind (fun p => p.ready)
          reason := payload.bind (fun p => p.reason)
          snapshots := payload.bind (fun p => p.snapshots)
          decisions := payload.bind (fun p => p.decisions)
          tweets := payload.bind (fun p => p.tweets) }

/-- Renders an optional boolean the way a JS template literal renders
`boolean | null`. -/
def jsShowOptBool : Option Bool → String
  | none => "null"
  | some true => "true"
  | some false => "false"

/-- The `old_vault.lp_drained` check row. -/
def lpDrainedCheck (oldSnapshot : VaultSnapshot) : CheckRow :=
  { id := "old_vault.lp_drained"
    status := if oldSnapshot.hasLpExposure then .FAIL else .PASS
    detail :=
      if oldSnapshot.hasLpExposure then
        "Old vault still has LP exposure. Exit to USDC before cutover."
      else "Old vault LP balances are zero." }

/-- The `new_vault.user_flow` check row. -/
def userFlowCheck (newSnapshot : VaultSnapshot) : CheckRow :=
  { id := "new_vault.user_flow"
    status := if newSnapshot.supportsUserFlow then .PASS else .FAIL
    detail :=
      if newSnapshot.supportsUserFlow then
        "New vault exposes user deposit/withdraw flow."
      else "New vault does not expose v2 user flow functions." }

/-- The `new_vault.deposit_token` check row. -/
def depositTokenCheck (newSnapshot : VaultSnapshot) (usdcAddress : String) : CheckRow :=
  { id := "new_vault.deposit_token"
    status :=
      if newSnapshot.depositToken.map String.toLower = some usdcAddress.toLower then
        .PASS
      else .WARN
    detail := "newVault.depositToken=" ++ newSnapshot.depositToken.getD "n/a"
      ++ " expected=" ++ usdcAddress }

/-- The `railway.new_service_ready` check row. -/
def newServiceReadyCheck (newEndpoint : Option EndpointSnapshot) : CheckRow :=
  match newEndpoint with
  | some ep =>
    { id := "railway.new_service_ready"
      status :=
        if ep.httpStatus = 200 ∧ ep.healthy = some true ∧ ep.ready = some true then
          .PASS
        else .FAIL
      detail := "status=" ++ toString ep.httpStatus
        ++ ", healthy=" ++ jsShowOptBool ep.healthy
        ++ ", ready=" ++ jsShowOptBool ep.ready
        ++ ", reason=" ++ ep.reason.getD "n/a" }
  | none =>
    { id := "railway.new_service_ready"
      status := .WARN
      detail := "MIGRATION_NEW_BOT_STATE_URL not set; readiness could not be verified." }

/-- The `railway.old_service_reachable` check row. -/
def oldServiceReachableCheck (oldEndpoint : Option EndpointSnapshot) : CheckRow :=
  match oldEndpoint with
  | some ep =>
    { id := "railway.old_service_reachable"
      status := if 200 ≤ ep.httpStatus ∧ ep.httpStatus < 500 then .PASS else .WARN
      detail := "status=" ++ toString ep.httpStatus
        ++ ", healthy=" ++ jsShowOptBool ep.healthy
        ++ ", ready=" ++ jsShowOptBool ep.ready }
  | none =>
    { id := "railway.old_service_reachable"
      status := .WARN
      detail := "MIGRATION_OLD_BOT_STATE_URL not set; rollback endpoint was not checked." }

/-- The ordered check list `main` pushes. -/
def buildChecks (oldSnapshot newSnapshot : VaultSnapshot)
    (oldEndpoint newEndpoint : Option EndpointSnapshot) (usdcAddress : String) :
    List CheckRow :=
  [lpDrainedCheck oldSnapshot,
   userFlowCheck newSnapshot,
   depositTokenCheck newSnapshot usdcAddress,
   newServiceReadyCheck newEndpoint,
   oldServiceReachableCheck oldEndpoint]

/-- The structured report `main` assembles (its timestamp, chain id and RPC
URL fields are environment echoes and are omitted); `exitCode` embeds the
`process.exitCode = 1` set when some check is FAIL. -/
structure MigrationReport where
  oldVault : VaultSnapshot
  newVault : VaultSnapshot
  oldService : Option EndpointSnapshot
  newService : Option EndpointSnapshot
  checks : List CheckRow
  exitCode : ℕ
deriving Repr, DecidableEq

/-- Resolution of an optional configured endpoint, as in `main`'s
`Promise.all`: an unset URL resolves to `null`; a configured URL runs
`readStateEndpoint`, whose rejection propagates. -/
def resolveEndpoint : Option (String × HttpOutcome) →
    Except String (Option EndpointSnapshot)
  | none => .ok none
  | some (url, outcome) => (readStateEndpoint url outcome).map some

/-- Source `main`, from the point where the vault snapshots are available:
resolves the optional endpoints (a rejected endpoint fetch is fatal — the
whole run errors and no report is produced), builds the check list and the
report. -/
def runMigrationReport (oldSnapshot newSnapshot : VaultSnapshot)
    (oldInput newInput : Option (String × HttpOutcome)) (usdcAddress : String) :
    Except String MigrationReport :=
  match resolveEndpoint oldInput with
  | .error e => .error e
  | .ok oldEndpoint =>
    match resolveEndpoint newInput with
    | .error e => .error e
    | .ok newEndpoint =>
      let checks := buildChecks oldSnapshot newSnapshot oldEndpoint newEndpoint usdcAddress
      .ok { oldVault := oldSnapshot
            newVault := newSnapshot
            oldService := oldEndpoint
            newService := newEndpoint
            checks := checks
            exitCode := if checks.any (fun c => decide (c.status = .FAIL)) then 1 else 0 }

/-- A sample old-vault snapshot used by the migration witnesses. -/
def sampleOldVault : VaultSnapshot :=
  { address := "0x5555555555555555555555555555555555555555"
    usdcBalanceRaw := 1000000
    hasLpExposure := false
    supportsUserFlow := false
    depositToken := none
    totalUserSharesRaw := none
    hasOpenLpPosition := none }

/-- A sample new-vault snapshot used by the migration witnesses. -/
def sampleNewVault : VaultSnapshot :=
  { address := "0x6666666666666666666666666666666666666666"
    usdcBalanceRaw := 0
    hasLpExposure := false
    supportsUserFlow := true
    depositToken := some "0x7777777777777777777777777777777777777777"
    totalUserSharesRaw := some 0
    hasOpenLpPosition := some false }

/-! ### Helper lemmas for evaluating `jsRound` -/

/-- Characterisation of `jsRound` by the floor bounds. -/
theorem jsRound_eq {x : ℚ} {n : ℤ} (h1 : (n : ℚ) ≤ x + 1 / 2) (h2 : x + 1 / 2 < n + 1) :
    jsRound x = n := by
  unfold jsRound
  exact Int.floor_eq_iff.mpr ⟨h1, by exact_mod_cast h2⟩

/-- Characterisation of `jsRoundQ` by the floor bounds. -/
theorem jsRoundQ_eq {x : ℚ} {n : ℤ} (h1 : (n : ℚ) ≤ x + 1 / 2) (h2 : x + 1 / 2 < n + 1) :
    jsRoundQ x = (n : ℚ) := by
  unfold jsRoundQ
  rw [jsRound_eq h1 h2]

/-! ### Supporting lemmas about the oracle embedding -/

/-- Setting a key makes it readable. -/
theorem mapLookup_mapSet_self {α : Type} (m : List (String × α)) (k : String) (v : α) :
    mapLookup (mapSet m k v) k = some v := by
  induction m with
  | nil => simp [mapSet, mapLookup]
  | cons head rest ih =>
    obtain ⟨k0, v0⟩ := head
    by_cases h : k0 = k
    · subst h
      simp [mapSet, mapLookup]
    · simp [mapSet, mapLookup, h, ih]

/-- Setting one key leaves every other key unchanged. -/
theorem mapLookup_mapSet_other {α : Type} (m : List (String × α)) {k0 k : String}
    (v : α) (h : k0 ≠ k) : mapLookup (mapSet m k0 v) k = mapLookup m k := by
  induction m with
  | nil => simp [mapSet, mapLookup, h]
  | cons head rest ih =>
    obtain ⟨k1, v1⟩ := head
    by_cases h1 : k1 = k0
    · subst h1
      simp [mapSet, mapLookup, h]
    · simp only [mapSet, if_neg h1, mapLookup]
      split <;> simp [ih]

/-- A transport-level fetch failure leaves the oracle state unchanged (only
a 429 response mutates it). -/
theorem fetchPrices_netError_state (st : OracleState) (nowMs : ℚ)
    (symbols : List String) (msg : String) :
    (fetchPrices st nowMs symbols (.netError msg)).state = st := by
  simp only [fetchPrices]
  split
  · rfl
  split
  · rfl
  split <;> rfl

/-- A transport-level fetch failure always surfaces as an error result. -/
theorem fetchPrices_netError_result (st : OracleState) (nowMs : ℚ)
    (symbols : List String) (msg : String) :
    ∃ e, (fetchPrices st nowMs symbols (.netError msg)).result = .error e := by
  simp only [fetchPrices]
  split
  · exact ⟨_, rfl⟩
  split
  · exact ⟨_, rfl⟩
  split
  · exact ⟨_, rfl⟩
  · exact ⟨_, rfl⟩

/-- During the rate-limit cooldown no upstream request is issued. -/
theorem fetchPrices_cooldown_requested (st : OracleState) (nowMs : ℚ)
    (symbols : List String) (upstream : UpstreamOutcome)
    (h : nowMs < st.rateLimitedUntilMs) :
    (fetchPrices st nowMs symbols upstream).requested = false := by
  simp only [fetchPrices]
  by_cases he : (jsSetDedup (symbols.map normalizeSymbol)).isEmpty = true
  · rw [if_pos he]
  · rw [if_neg he, if_pos h]

/-- During the rate-limit cooldown every fetch attempt errors. -/
theorem fetchPrices_cooldown_result_any (st : OracleState) (nowMs : ℚ)
    (symbols : List String) (upstream : UpstreamOutcome)
    (h : nowMs < st.rateLimitedUntilMs) :
    ∃ e, (fetchPrices st nowMs symbols upstream).result = .error e := by
  simp only [fetchPrices]
  by_cases he : (jsSetDedup (symbols.map normalizeSymbol)).isEmpty = true
  · rw [if_pos he]
    exact ⟨_, rfl⟩
  · rw [if_neg he, if_pos h]
    exact ⟨_, rfl⟩

/-- During the rate-limit cooldown the state is unchanged. -/
theorem fetchPrices_cooldown_state (st : OracleState) (nowMs : ℚ)
    (symbols : List String) (upstream : UpstreamOutcome)
    (h : nowMs < st.rateLimitedUntilMs) :
    (fetchPrices st nowMs symbols upstream).state = st := by
  simp only [fetchPrices]
  by_cases he : (jsSetDedup (symbols.map normalizeSymbol)).isEmpty = true
  · rw [if_pos he]
  · rw [if_neg he, if_pos h]

/-- During the rate-limit cooldown a non-empty fetch attempt fails with the
descriptive cooldown message. -/
theorem fetchPrices_cooldown_message (st : OracleState) (nowMs : ℚ)
    (symbols : List String) (upstream : UpstreamOutcome)
    (h : nowMs < st.rateLimitedUntilMs)
    (hne : jsSetDedup (symbols.map normalizeSymbol) ≠ []) :
    (fetchPrices st nowMs symbols upstream).result
      = .error (cooldownActiveMessage st.rateLimitedUntilMs nowMs) := by
  simp only [fetchPrices]
  rw [if_neg (by simpa [List.isEmpty_iff] using hne), if_pos h]

/-- Outside the cooldown, with a non-empty symbol set and complete id
mappings, the upstream request is issued. -/
theorem fetchPrices_requested_of_valid (st : OracleState) (nowMs : ℚ)
    (symbols : List String) (upstream : UpstreamOutcome) (ids : List String)
    (h : ¬ nowMs < st.rateLimitedUntilMs)
    (hne : jsSetDedup (symbols.map normalizeSymbol) ≠ [])
    (hids : lookupCoingeckoIds st.config.coingeckoIdBySymbol
      (jsSetDedup (symbols.map normalizeSymbol)) = .ok ids) :
    (fetchPrices st nowMs symbols upstream).requested = true := by
  simp only [fetchPrices]
  rw [if_neg (by simpa [List.isEmpty_iff] using hne), if_neg h]
  simp only [hids]
  cases upstream with
  | netError msg => rfl
  | respond status body =>
    dsimp only
    by_cases hok : 200 ≤ status ∧ status ≤ 299
    · rw [if_pos hok]
      cases body with
      | error e => rfl
      | ok payload =>
        cases hp : parseSimplePricePayload (jsSetDedup (symbols.map normalizeSymbol))
            ids payload with
        | error e => simp [hp]
        | ok result => simp [hp]
    · rw [if_neg hok]

/-- A missing cache entry reads as `null`. -/
theorem readCachedValue_none_of_lookup_none (cache : List (String × CacheEntry))
    (s : String) (allowStale : Bool) (nowMs : ℚ)
    (h : mapLookup cache (normalizeSymbol s) = none) :
    readCachedValue cache s allowStale nowMs = none := by
  simp [readCachedValue, h]

/-- If the stale read misses, the entry is absent, so the fresh read misses
as well. -/
theorem readCachedValue_false_none_of_true_none (cache : List (String × CacheEntry))
    (s : String) (nowMs : ℚ) (h : readCachedValue cache s true nowMs = none) :
    readCachedValue cache s false nowMs = none := by
  simp only [readCachedValue] at h ⊢
  cases hl : mapLookup cache (normalizeSymbol s) with
  | none => rfl
  | some cached => simp [hl] at h

/-- A snapshot read misses as soon as one of its symbols misses. -/
theorem readCachedSnapshot_none (cache : List (String × CacheEntry))
    (symbols : List String) (allowStale : Bool) (nowMs : ℚ) (s : String)
    (hs : s ∈ symbols) (h : readCachedValue cache s allowStale nowMs = none) :
    readCachedSnapshot cache symbols allowStale nowMs = none := by
  induction symbols with
  | nil => cases hs
  | cons s0 rest ih =>
    rcases List.mem_cons.mp hs with hs0 | hmem
    · subst hs0
      simp [readCachedSnapshot, h]
    · rw [readCachedSnapshot]
      cases hv : readCachedValue cache s0 allowStale nowMs with
      | none => rfl
      | some v => simp [ih hmem]

/-- Writing a snapshot whose entries all carry the same value preserves any
key already holding that value with that expiry. -/
theorem writeCacheSnapshot_preserves (values : List (String × ℚ)) (v : ℚ)
    (nowMs ttlMs : ℚ) (st : OracleState) (k : String)
    (hk : mapLookup st.cache k = some ⟨v, nowMs + ttlMs⟩)
    (hv : ∀ p ∈ values, p.2 = v) :
    mapLookup (writeCacheSnapshot st values nowMs ttlMs).cache k
      = some ⟨v, nowMs + ttlMs⟩ := by
  induction values generalizing st with
  | nil => simpa [writeCacheSnapshot] using hk
  | cons p rest ih =>
    obtain ⟨s0, v0⟩ := p
    have hv0 : v0 = v := hv (s0, v0) (List.mem_cons_self _ _)
    subst hv0
    rw [writeCacheSnapshot]
    apply ih
    · by_cases h0 : normalizeSymbol s0 = k
      · rw [writeCache, ← h0]
        exact mapLookup_mapSet_self _ _ _
      · rw [writeCache]
        simpa [mapLookup_mapSet_other _ _ h0] using hk
    · exact fun p hp => hv p (List.mem_cons_of_mem _ hp)

/-- After writing a snapshot whose entries all carry the same value, every
written symbol reads back that value with the snapshot's expiry. -/
theorem writeCacheSnapshot_lookup (values : List (String × ℚ)) (v : ℚ)
    (nowMs ttlMs : ℚ) (st : OracleState) (s : String)
    (hv : ∀ p ∈ values, p.2 = v) (hs : s ∈ values.map Prod.fst) :
    mapLookup (writeCacheSnapshot st values nowMs ttlMs).cache (normalizeSymbol s)
      = some ⟨v, nowMs + ttlMs⟩ := by
  induction values generalizing st with
  | nil => simp at hs
  | cons p rest ih =>
    obtain ⟨s0, v0⟩ := p
    have hv0 : v0 = v := hv (s0, v0) (List.mem_cons_self _ _)
    subst hv0
    rw [writeCacheSnapshot]
    by_cases hs0 : s = s0
    · subst hs0
      apply writeCacheSnapshot_preserves
      · rw [writeCache]
        exact mapLookup_mapSet_self _ _ _
      · exact fun p hp => hv p (List.mem_cons_of_mem _ hp)
    · have hmem : s ∈ rest.map Prod.fst := by
        rcases (by simpa using hs : s = s0 ∨ ∃ x, (s, x) ∈ rest) with h | ⟨x, hx⟩
        · exact absurd h hs0
        · exact List.mem_map.mpr ⟨(s, x), hx, rfl⟩
      exact ih _ (fun p hp => hv p (List.mem_cons_of_mem _ hp)) hmem

/-- The warn-cooldown bookkeeping never touches the price cache. -/
theorem warnWithCooldown_cache (st : OracleState) (nowMs : ℚ) (key : String) :
    (warnWithCooldown st nowMs key).cache = st.cache := by
  simp only [warnWithCooldown]
  by_cases h1 : st.warningCooldownMs ≤ 0
  · rw [if_pos h1]
  · rw [if_neg h1]
    by_cases h2 : nowMs - (mapLookup st.warningLastLoggedAt key).getD 0
        < st.warningCooldownMs
    · rw [if_pos h2]
    · rw [if_neg h2]

/-- The warn-cooldown bookkeeping never touches the telemetry. -/
theorem warnWithCooldown_telemetry (st : OracleState) (nowMs : ℚ) (key : String) :
    (warnWithCooldown st nowMs key).telemetry = st.telemetry := by
  simp only [warnWithCooldown]
  by_cases h1 : st.warningCooldownMs ≤ 0
  · rw [if_pos h1]
  · rw [if_neg h1]
    by_cases h2 : nowMs - (mapLookup st.warningLastLoggedAt key).getD 0
        < st.warningCooldownMs
    · rw [if_pos h2]
    · rw [if_neg h2]

/-- The warn-cooldown bookkeeping never touches the resolved TTL fields. -/
theorem warnWithCooldown_staleTtl (st : OracleState) (nowMs : ℚ) (key : String) :
    (warnWithCooldown st nowMs key).staleFallbackTtlMs = st.staleFallbackTtlMs := by
  simp only [warnWithCooldown]
  by_cases h1 : st.warningCooldownMs ≤ 0
  · rw [if_pos h1]
  · rw [if_neg h1]
    by_cases h2 : nowMs - (mapLookup st.warningLastLoggedAt key).getD 0
        < st.warningCooldownMs
    · rw [if_pos h2]
    · rw [if_neg h2]

/-- An expired entry reads as `null` on a fresh (non-stale) read. -/
theorem readCachedValue_expired (cache : List (String × CacheEntry)) (s : String)
    (entry : CacheEntry) (nowMs : ℚ)
    (h : mapLookup cache (normalizeSymbol s) = some entry)
    (hexp : entry.expiresAt ≤ nowMs) :
    readCachedValue cache s false nowMs = none := by
  simp [readCachedValue, h, hexp]

/-- Any present entry reads back on a stale-allowed read. -/
theorem readCachedValue_stale_hit (cache : List (String × CacheEntry)) (s : String)
    (entry : CacheEntry) (nowMs : ℚ)
    (h : mapLookup cache (normalizeSymbol s) = some entry) :
    readCachedValue cache s true nowMs = some entry.value := by
  simp [readCachedValue, h]

/-- During the rate-limit cooldown `getPriceUsd` issues no upstream request. -/
theorem getPriceUsd_cooldown_no_request (st : OracleState) (nowMs : ℚ)
    (symbol : String) (upstream : UpstreamOutcome)
    (h : nowMs < st.rateLimitedUntilMs) :
    (getPriceUsd st nowMs symbol upstream).requested = false := by
  simp only [getPriceUsd]
  cases hc : readCachedValue st.cache (normalizeSymbol symbol) false nowMs with
  | some v => rfl
  | none =>
    have hreq := fetchPrices_cooldown_requested st nowMs [normalizeSymbol symbol]
      upstream h
    obtain ⟨e, he⟩ := fetchPrices_cooldown_result_any st nowMs [normalizeSymbol symbol]
      upstream h
    simp only [he]
    cases hs : readCachedValue
        (bumpFetchFailures (fetchPrices st nowMs [normalizeSymbol symbol] upstream).state).cache
        (normalizeSymbol symbol) true nowMs with
    | some stale => exact hreq
    | none => exact hreq

/-- During the rate-limit cooldown `getStablePricesUsd` issues no upstream
request. -/
theorem getStablePricesUsd_cooldown_no_request (st : OracleState) (nowMs : ℚ)
    (upstream : UpstreamOutcome) (h : nowMs < st.rateLimitedUntilMs) :
    (getStablePricesUsd st nowMs upstream).requested = false := by
  simp only [getStablePricesUsd]
  cases hc : readCachedSnapshot st.cache (stableSymbolsOf st) false nowMs with
  | some fresh => rfl
  | none =>
    have hreq := fetchPrices_cooldown_requested st nowMs (stableSymbolsOf st) upstream h
    obtain ⟨e, he⟩ := fetchPrices_cooldown_result_any st nowMs (stableSymbolsOf st)
      upstream h
    simp only [he]
    cases hs : readCachedSnapshot
        (bumpFetchFailures (fetchPrices st nowMs (stableSymbolsOf st) upstream).state).cache
        (stableSymbolsOf st) true nowMs with
    | some fallback => exact hreq
    | none => exact hreq

/-- Cache writes never touch the telemetry. -/
theorem writeCacheSnapshot_telemetry (values : List (String × ℚ)) (nowMs ttlMs : ℚ) :
    ∀ st : OracleState, (writeCacheSnapshot st values nowMs ttlMs).telemetry
      = st.telemetry := by
  induction values with
  | nil => intro st; rfl
  | cons p rest ih => intro st; exact ih _

/-- If a stale-allowed snapshot read misses, so does the fresh one. -/
theorem readCachedSnapshot_false_none_of_true_none (cache : List (String × CacheEntry))
    (symbols : List String) (nowMs : ℚ)
    (h : readCachedSnapshot cache symbols true nowMs = none) :
    readCachedSnapshot cache symbols false nowMs = none := by
  induction symbols with
  | nil => simp [readCachedSnapshot] at h
  | cons s0 rest ih =>
    rw [readCachedSnapshot] at h ⊢
    cases hv : readCachedValue cache s0 true nowMs with
    | none =>
      rw [readCachedValue_false_none_of_true_none cache s0 nowMs hv]
    | some v =>
      rw [hv] at h
      cases hf : readCachedValue cache s0 false nowMs with
      | none => rfl
      | some w =>
        cases ht : readCachedSnapshot cache rest true nowMs with
        | some r => rw [ht] at h; simp at h
        | none => simp [ih ht]

/-! ### Claims about the guard engine and yield math -/

/-- C4: the depeg guard triggers exactly when the price map is empty or some
symbol's deviation (in rounded bps from one dollar) exceeds the threshold. -/
theorem depegGuard_triggered_iff (stablePricesUsd : List (String × ℚ))
    (maxDeviationBps : ℚ) :
    (depegGuard stablePricesUsd maxDeviationBps).triggered = true ↔
      stablePricesUsd = [] ∨
        ∃ entry ∈ stablePricesUsd, maxDeviationBps < deviationBpsFromDollar entry.2 := by
  unfold depegGuard
  rcases stablePricesUsd with _ | ⟨p, ps⟩
  · simp
  · simp [List.any_map, List.any_eq_true, Function.comp, apply_ite GuardResult.triggered]

/-- C4 witness: `{USDC: 1.02}` at threshold 100bps triggers (deviation 200bps),
`{USDC: 1.005}` at threshold 100bps does not (deviation 50bps). -/
theorem depegGuard_triggered_iff_witness :
    (depegGuard [("USDC", 102 / 100)] 100).triggered = true
    ∧ (depegGuard [("USDC", 1005 / 1000)] 100).triggered = false := by
  have hdev1 : deviationBpsFromDollar (102 / 100) = 200 := by
    unfold deviationBpsFromDollar
    rw [show ((200 : ℚ) = ((200 : ℤ) : ℚ)) by norm_num]
    apply jsRoundQ_eq <;> norm_num [abs_of_nonneg]
  have hdev2 : deviationBpsFromDollar (1005 / 1000) = 50 := by
    unfold deviationBpsFromDollar
    rw [show ((50 : ℚ) = ((50 : ℤ) : ℚ)) by norm_num]
    apply jsRoundQ_eq <;> norm_num [abs_of_nonneg]
  constructor
  · exact (depegGuard_triggered_iff [("USDC", 102 / 100)] 100).mpr
      (Or.inr ⟨("USDC", 102 / 100), by simp, by rw [hdev1]; norm_num⟩)
  · cases hb : (depegGuard [("USDC", 1005 / 1000)] 100).triggered
    · rfl
    · exfalso
      rcases (depegGuard_triggered_iff [("USDC", 1005 / 1000)] 100).mp hb with h | ⟨e, he, hlt⟩
      · exact List.cons_ne_nil _ _ h
      · have : e = ("USDC", 1005 / 1000) := by simpa using he
        rw [this] at hlt
        rw [hdev2] at hlt
        norm_num at hlt

/-- C5: the APR-cliff guard never triggers without a previous snapshot or with
a non-positive previous incentive APR; with both snapshots and a positive
previous incentive it triggers exactly when the rounded fractional drop in bps
exceeds the threshold. -/
theorem aprCliffGuard_spec (currentSnapshot previousSnapshot : Option PoolSnapshot)
    (minDropBps : ℚ) :
    (previousSnapshot = none →
      (aprCliffGuard currentSnapshot previousSnapshot minDropBps).triggered = false)
    ∧ (∀ p, previousSnapshot = some p → p.incentiveAprBps ≤ 0 →
      (aprCliffGuard currentSnapshot previousSnapshot minDropBps).triggered = false)
    ∧ (∀ c p, currentSnapshot = some c → previousSnapshot = some p →
        0 < p.incentiveAprBps →
      ((aprCliffGuard currentSnapshot previousSnapshot minDropBps).triggered = true ↔
        minDropBps <
          jsRoundQ ((p.incentiveAprBps - c.incentiveAprBps) / p.incentiveAprBps * 10000))) := by
  refine ⟨?_, ?_, ?_⟩
  · intro hp
    subst hp
    cases currentSnapshot <;> simp [aprCliffGuard]
  · intro p hp hle
    subst hp
    cases currentSnapshot with
    | none => simp [aprCliffGuard]
    | some c => simp [aprCliffGuard, if_pos hle]
  · intro c p hc hp hpos
    subst hc
    subst hp
    rw [aprCliffGuard]
    rw [if_neg (by exact not_le.mpr hpos)]
    simp [apply_ite GuardResult.triggered]

/-- C5 witness: previous incentive 1000bps and current 400bps at threshold
5000bps triggers (drop 6000bps); previous incentive 0 does not trigger. -/
theorem aprCliffGuard_spec_witness :
    (aprCliffGuard (some ⟨"pool-a", 400, 0, 0⟩) (some ⟨"pool-a", 1000, 0, 0⟩)
      5000).triggered = true
    ∧ (aprCliffGuard (some ⟨"pool-a", 400, 0, 0⟩) (some ⟨"pool-a", 0, 0, 0⟩)
      5000).triggered = false := by
  constructor
  · apply ((aprCliffGuard_spec (some ⟨"pool-a", 400, 0, 0⟩) (some ⟨"pool-a", 1000, 0, 0⟩)
      5000).2.2 _ _ rfl rfl (by norm_num)).mpr
    have : jsRoundQ (((1000 : ℚ) - 400) / 1000 * 10000) = ((6000 : ℤ) : ℚ) := by
      apply jsRoundQ_eq <;> norm_num
    simp only [this]
    norm_num
  · exact (aprCliffGuard_spec (some ⟨"pool-a", 400, 0, 0⟩) (some ⟨"pool-a", 0, 0, 0⟩)
      5000).2.1 _ rfl (by norm_num)

/-- C8: `estimatePaybackHours` is positive infinity exactly on non-positive
APY deltas, and equals `(cost / delta) * 24 * 365` otherwise. -/
theorem estimatePaybackHours_spec (costBps deltaApyBps : ℚ) :
    (deltaApyBps ≤ 0 → estimatePaybackHours costBps deltaApyBps = .posInfinity)
    ∧ (0 < deltaApyBps →
      estimatePaybackHours costBps deltaApyBps
        = .finite (costBps / deltaApyBps * 24 * 365)) := by
  constructor
  · intro h
    simp [estimatePaybackHours, if_pos h]
  · intro h
    rw [estimatePaybackHours, if_neg (not_le.mpr h)]
    ring_nf

/-- C8 witness: `paybackHours(12, 0)` is positive infinity and
`paybackHours(100, 200) = 4380`. -/
theorem estimatePaybackHours_spec_witness :
    estimatePaybackHours 12 0 = .posInfinity
    ∧ estimatePaybackHours 100 200 = .finite 4380 := by
  constructor
  · exact (estimatePaybackHours_spec 12 0).1 (by norm_num)
  · rw [(estimatePaybackHours_spec 100 200).2 (by norm_num)]
    norm_num

/-! ### Claims about the Dex1 adapter -/

/-- C1 counterexample: the disabled Dex1 adapter does return successfully
built enter and exit requests on a concrete input, so not every method of
the capability set fails with a "disabled" error. -/
theorem dex1Build_succeeds_counterexample :
    (dex1BuildEnterRequest
      { pool := dex1SamplePool, amountIn := 1000000, minOut := 990000
        deadline := 1700000000, netApyBps := 250, intendedHoldSeconds := 3600 }).isOk = true
    ∧ (dex1BuildExitRequest
      { pool := dex1SamplePool, tokenOut := "0x3333333333333333333333333333333333333333"
        amountIn := 500000, minOut := 495000, deadline := 1700000000 }).isOk = true :=
  ⟨rfl, rfl⟩

/-- C1 amended: the three read/estimate methods of the disabled Dex1 adapter
fail with the "disabled" error on every input, while `buildEnterRequest` and
`buildExitRequest` succeed, returning a payload copied from their input with
opaque call data `"0x"`. -/
theorem dex1Adapter_amended_spec :
    (∀ pool, dex1FetchPoolState pool = .error dex1DisabledMessage)
    ∧ (∀ pool amountIn, dex1EstimatePriceImpactBps pool amountIn
        = .error dex1DisabledMessage)
    ∧ (∀ fromPool toPool amountIn, dex1EstimateRotationCostBps fromPool toPool amountIn
        = .error dex1DisabledMessage)
    ∧ (∀ input, dex1BuildEnterRequest input =
        .ok { target := input.pool.target, pool := input.pool.pool
              tokenIn := input.pool.tokenIn, lpToken := input.pool.lpToken
              amountIn := input.amountIn, minOut := input.minOut
              deadline := input.deadline, data := "0x"
              pair := input.pool.pair, protocol := input.pool.protocol
              netApyBps := input.netApyBps
              intendedHoldSeconds := input.intendedHoldSeconds })
    ∧ (∀ input, dex1BuildExitRequest input =
        .ok { target := input.pool.target, pool := input.pool.pool
              lpToken := input.pool.lpToken, tokenOut := input.tokenOut
              amountIn := input.amountIn, minOut := input.minOut
              deadline := input.deadline, data := "0x"
              pair := input.pool.pair, protocol := input.pool.protocol }) :=
  ⟨fun _ => rfl, fun _ _ => rfl, fun _ _ _ => rfl, fun _ => rfl, fun _ => rfl⟩

/-! ### Claims about the price oracle's fallback behaviour -/

/-- C2: with a failing transport and no cached entry for any configured
stable symbol, the stable-batch lookup returns a hard-fallback price of 1
for every configured stable symbol, while a single-symbol lookup with no
cached entry propagates the failure. -/
theorem oracle_hard_fallback_vs_propagate (st : OracleState) (nowMs : ℚ) (msg : String) :
    (stableSymbolsOf st ≠ [] →
      (∀ s ∈ stableSymbolsOf st, mapLookup st.cache (normalizeSymbol s) = none) →
      (getStablePricesUsd st nowMs (.netError msg)).result
        = .ok ((stableSymbolsOf st).map (fun s => (s, 1))))
    ∧ (∀ symbol, normalizeSymbol symbol = symbol →
        mapLookup st.cache symbol = none →
        ∃ e, (getPriceUsd st nowMs symbol (.netError msg)).result = .error e) := by
  constructor
  · intro hne hmiss
    obtain ⟨s0, hs0⟩ := List.exists_mem_of_ne_nil _ hne
    have hval : ∀ b, readCachedValue st.cache s0 b nowMs = none := fun b =>
      readCachedValue_none_of_lookup_none _ _ _ _ (hmiss s0 hs0)
    have hfresh : readCachedSnapshot st.cache (stableSymbolsOf st) false nowMs = none :=
      readCachedSnapshot_none _ _ _ _ s0 hs0 (hval false)
    obtain ⟨e, he⟩ := fetchPrices_netError_result st nowMs (stableSymbolsOf st) msg
    have hstate := fetchPrices_netError_state st nowMs (stableSymbolsOf st) msg
    have hstale : readCachedSnapshot (bumpFetchFailures st).cache
        (stableSymbolsOf st) true nowMs = none :=
      readCachedSnapshot_none _ _ _ _ s0 hs0 (hval true)
    simp only [getStablePricesUsd, hfresh, he, hstate, hstale]
  · intro symbol hcanon hmiss1
    have hval : ∀ b, readCachedValue st.cache symbol b nowMs = none := fun b =>
      readCachedValue_none_of_lookup_none _ _ _ _ (by rw [hcanon]; exact hmiss1)
    obtain ⟨e, he⟩ := fetchPrices_netError_result st nowMs [symbol] msg
    have hstate := fetchPrices_netError_state st nowMs [symbol] msg
    have hstale : readCachedValue (bumpFetchFailures st).cache symbol true nowMs
        = none := hval true
    refine ⟨e, ?_⟩
    simp only [getPriceUsd, hcanon, hval false, he, hstate, hstale]

/-- C2 witness: on an empty cache with two configured stables and a failing
transport, the stable batch returns one dollar per symbol and the single
lookup errors. -/
theorem oracle_hard_fallback_vs_propagate_witness :
    (getStablePricesUsd (mkLivePriceOracle sampleOracleConfig) 1000
        (.netError "boom")).result = .ok [("USDC", 1), ("USDT", 1)]
    ∧ ∃ e, (getPriceUsd (mkLivePriceOracle sampleOracleConfig) 1000 "MON"
        (.netError "boom")).result = .error e := by
  have h := oracle_hard_fallback_vs_propagate (mkLivePriceOracle sampleOracleConfig)
    1000 "boom"
  have hsyms : stableSymbolsOf (mkLivePriceOracle sampleOracleConfig)
      = ["USDC", "USDT"] := by decide
  constructor
  · have h1 := h.1 (by rw [hsyms]; simp) (fun s _ => rfl)
    rw [hsyms] at h1
    simpa using h1
  · exact h.2 "MON" (by decide) rfl

/-- C7: an expired-only cache entry plus a failing transport make
`getPriceUsd` return the stale value and re-arm the entry with the resolved
stale-fallback TTL, which the constructor makes at least the normal cache
TTL. -/
theorem getPriceUsd_stale_fallback (st : OracleState) (nowMs : ℚ) (symbol : String)
    (msg : String) (entry : CacheEntry)
    (hcanon : normalizeSymbol symbol = symbol)
    (hlook : mapLookup st.cache symbol = some entry)
    (hexp : entry.expiresAt ≤ nowMs) :
    (getPriceUsd st nowMs symbol (.netError msg)).result = .ok entry.value
    ∧ mapLookup (getPriceUsd st nowMs symbol (.netError msg)).state.cache symbol
        = some ⟨entry.value, nowMs + st.staleFallbackTtlMs⟩
    ∧ ∀ cfg, cfg.cacheTtlMs ≤ (mkLivePriceOracle cfg).staleFallbackTtlMs := by
  have hfresh : readCachedValue st.cache symbol false nowMs = none :=
    readCachedValue_expired _ _ _ _ (by rw [hcanon]; exact hlook) hexp
  obtain ⟨e, he⟩ := fetchPrices_netError_result st nowMs [symbol] msg
  have hstate := fetchPrices_netError_state st nowMs [symbol] msg
  have hstale : readCachedValue (bumpFetchFailures st).cache symbol true nowMs
      = some entry.value :=
    readCachedValue_stale_hit _ _ _ _ (by rw [hcanon]; exact hlook)
  refine ⟨?_, ?_, fun cfg => le_max_left _ _⟩
  · simp only [getPriceUsd, hcanon, hfresh, he, hstale, hstate]
  · simp only [getPriceUsd, hcanon, hfresh, he, hstale, hstate]
    rw [warnWithCooldown_cache, writeCache, hcanon]
    exact mapLookup_mapSet_self _ _ _

/-- C7 witness: a concrete expired entry is served and re-armed with the
301000ms expiry (`now = 1000` plus the resolved 300000ms stale TTL). -/
theorem getPriceUsd_stale_fallback_witness :
    (getPriceUsd sampleStaleOracleState 1000 "USDC" (.netError "boom")).result = .ok 2
    ∧ mapLookup (getPriceUsd sampleStaleOracleState 1000 "USDC"
        (.netError "boom")).state.cache "USDC" = some ⟨2, 301000⟩ := by
  have h := getPriceUsd_stale_fallback sampleStaleOracleState 1000 "USDC" "boom"
    ⟨2, 500⟩ (by decide) (by decide) (by norm_num)
  have httl : sampleStaleOracleState.staleFallbackTtlMs = 300000 :=
    max_eq_right (by norm_num [sampleOracleConfig])
  refine ⟨h.1, ?_⟩
  rw [h.2.1, httl]
  norm_num

/-- C10: if the transport fails and even one configured stable symbol has no
cache entry at all, the stable batch discards every cached stable price:
it returns 1 for every configured stable symbol and overwrites every stable
symbol's cache entry with value 1 under the stale-fallback TTL. -/
theorem getStablePricesUsd_hard_fallback_overwrites (st : OracleState) (nowMs : ℚ)
    (msg : String) (s0 : String) (hs0 : s0 ∈ stableSymbolsOf st)
    (hmiss : mapLookup st.cache (normalizeSymbol s0) = none) :
    (getStablePricesUsd st nowMs (.netError msg)).result
      = .ok ((stableSymbolsOf st).map (fun s => (s, 1)))
    ∧ ∀ s ∈ stableSymbolsOf st,
        mapLookup (getStablePricesUsd st nowMs (.netError msg)).state.cache
          (normalizeSymbol s) = some ⟨1, nowMs + st.staleFallbackTtlMs⟩ := by
  have hval : ∀ b, readCachedValue st.cache s0 b nowMs = none := fun b =>
    readCachedValue_none_of_lookup_none _ _ _ _ hmiss
  have hfresh : readCachedSnapshot st.cache (stableSymbolsOf st) false nowMs = none :=
    readCachedSnapshot_none _ _ _ _ s0 hs0 (hval false)
  obtain ⟨e, he⟩ := fetchPrices_netError_result st nowMs (stableSymbolsOf st) msg
  have hstate := fetchPrices_netError_state st nowMs (stableSymbolsOf st) msg
  have hstale : readCachedSnapshot (bumpFetchFailures st).cache
      (stableSymbolsOf st) true nowMs = none :=
    readCachedSnapshot_none _ _ _ _ s0 hs0 (hval true)
  constructor
  · simp only [getStablePricesUsd, hfresh, he, hstate, hstale]
  · intro s hs
    simp only [getStablePricesUsd, hfresh, he, hstate, hstale]
    rw [warnWithCooldown_cache]
    apply writeCacheSnapshot_lookup
    · intro p hp
      rcases List.mem_map.mp hp with ⟨x, hx, hpx⟩
      rw [← hpx]
    · simpa [List.map_map, Function.comp] using hs

/-- C10 witness: with USDC cached at a real price and USDT absent, the batch
returns 1 for both and overwrites USDC's entry with 1 at the stale TTL. -/
theorem getStablePricesUsd_hard_fallback_overwrites_witness :
    (getStablePricesUsd samplePartialOracleState 1000 (.netError "boom")).result
      = .ok [("USDC", 1), ("USDT", 1)]
    ∧ mapLookup (getStablePricesUsd samplePartialOracleState 1000
        (.netError "boom")).state.cache "USDC" = some ⟨1, 301000⟩ := by
  have hsyms : stableSymbolsOf samplePartialOracleState = ["USDC", "USDT"] := by decide
  have h := getStablePricesUsd_hard_fallback_overwrites samplePartialOracleState
    1000 "boom" "USDT" (by rw [hsyms]; simp) (by decide)
  have httl : samplePartialOracleState.staleFallbackTtlMs = 300000 :=
    max_eq_right (by norm_num [sampleOracleConfig])
  constructor
  · have h1 := h.1
    rw [hsyms] at h1
    simpa using h1
  · have hl := h.2 "USDC" (by rw [hsyms]; simp)
    rw [httl] at hl
    have h301 : ((1000 : ℚ) + 300000) = 301000 := by norm_num
    rw [h301] at hl
    have hkey : normalizeSymbol "USDC" = "USDC" := by decide
    rw [hkey] at hl
    exact hl

/-- C6: a 429 response arms the rate-limit cooldown window: the fetch fails
with the 429 error and the armed state short-circuits every fetch attempt
made before the window lapses — erroring without issuing an upstream
request (from `fetchPrices`, `getPriceUsd` and `getStablePricesUsd` alike),
with the descriptive cooldown message on any non-empty symbol set — while
an attempt at or after the window's end issues a request again; an
unconfigured cooldown defaults to 300000ms. -/
theorem fetchPrices_429_cooldown (st : OracleState) (t0 : ℚ) (symbols : List String)
    (body : Except String (List (String × Option ℚ))) (ids : List String)
    (hnc : ¬ t0 < st.rateLimitedUntilMs)
    (hne : jsSetDedup (symbols.map normalizeSymbol) ≠ [])
    (hids : lookupCoingeckoIds st.config.coingeckoIdBySymbol
      (jsSetDedup (symbols.map normalizeSymbol)) = .ok ids) :
    fetchPrices st t0 symbols (.respond 429 body)
      = ⟨.error "CoinGecko returned 429",
         { st with rateLimitedUntilMs := t0 + st.rateLimitCooldownMs }, true⟩
    ∧ (∀ t1 syms2 up2, t1 < t0 + st.rateLimitCooldownMs →
        (fetchPrices { st with rateLimitedUntilMs := t0 + st.rateLimitCooldownMs }
            t1 syms2 up2).requested = false
        ∧ ∃ e, (fetchPrices { st with rateLimitedUntilMs := t0 + st.rateLimitCooldownMs }
            t1 syms2 up2).result = .error e)
    ∧ (∀ t1 syms2 up2, t1 < t0 + st.rateLimitCooldownMs →
        jsSetDedup (syms2.map normalizeSymbol) ≠ [] →
        (fetchPrices { st with rateLimitedUntilMs := t0 + st.rateLimitCooldownMs }
            t1 syms2 up2).result
          = .error (cooldownActiveMessage (t0 + st.rateLimitCooldownMs) t1))
    ∧ (∀ t1 sym up2, t1 < t0 + st.rateLimitCooldownMs →
        (getPriceUsd { st with rateLimitedUntilMs := t0 + st.rateLimitCooldownMs }
            t1 sym up2).requested = false)
    ∧ (∀ t1 up2, t1 < t0 + st.rateLimitCooldownMs →
        (getStablePricesUsd { st with rateLimitedUntilMs := t0 + st.rateLimitCooldownMs }
            t1 up2).requested = false)
    ∧ (∀ t1 syms2 up2 ids2, t0 + st.rateLimitCooldownMs ≤ t1 →
        jsSetDedup (syms2.map normalizeSymbol) ≠ [] →
        lookupCoingeckoIds st.config.coingeckoIdBySymbol
          (jsSetDedup (syms2.map normalizeSymbol)) = .ok ids2 →
        (fetchPrices { st with rateLimitedUntilMs := t0 + st.rateLimitCooldownMs }
            t1 syms2 up2).requested = true)
    ∧ (∀ cfg : LivePriceOracleConfig, cfg.rateLimitCooldownMs = none →
        (mkLivePriceOracle cfg).rateLimitCooldownMs = 300000) := by
  refine ⟨?_, ?_, ?_, ?_, ?_, ?_, ?_⟩
  · simp only [fetchPrices]
    rw [if_neg (by simpa [List.isEmpty_iff] using hne), if_neg hnc]
    simp only [hids]
    rw [if_neg (by decide : ¬ (200 ≤ 429 ∧ 429 ≤ 299)), if_pos trivial]
    rfl
  · intro t1 syms2 up2 h1
    exact ⟨fetchPrices_cooldown_requested _ _ _ _ h1,
      fetchPrices_cooldown_result_any _ _ _ _ h1⟩
  · intro t1 syms2 up2 h1 hne2
    exact fetchPrices_cooldown_message _ _ _ _ h1 hne2
  · intro t1 sym up2 h1
    exact getPriceUsd_cooldown_no_request _ _ _ _ h1
  · intro t1 up2 h1
    exact getStablePricesUsd_cooldown_no_request _ _ _ h1
  · intro t1 syms2 up2 ids2 h1 hne2 hids2
    exact fetchPrices_requested_of_valid _ _ _ _ _ (not_lt.mpr h1) hne2 hids2
  · intro cfg hc
    simp only [mkLivePriceOracle, hc, Option.getD_none]
    exact max_eq_right (by norm_num)

/-- C6 witness: a concrete 429 at time 1000 arms a 300000ms window; a fetch
at time 200000 issues no request, and one at time 301000 does. -/
theorem fetchPrices_429_cooldown_witness :
    fetchPrices (mkLivePriceOracle sampleOracleConfig) 1000 ["USDC"]
        (.respond 429 (.ok []))
      = ⟨.error "CoinGecko returned 429",
         { mkLivePriceOracle sampleOracleConfig with
             rateLimitedUntilMs :=
               1000 + (mkLivePriceOracle sampleOracleConfig).rateLimitCooldownMs },
         true⟩
    ∧ (fetchPrices
        { mkLivePriceOracle sampleOracleConfig with
            rateLimitedUntilMs :=
              1000 + (mkLivePriceOracle sampleOracleConfig).rateLimitCooldownMs }
        200000 ["USDC"] (.netError "x")).requested = false
    ∧ (fetchPrices
        { mkLivePriceOracle sampleOracleConfig with
            rateLimitedUntilMs :=
              1000 + (mkLivePriceOracle sampleOracleConfig).rateLimitCooldownMs }
        301000 ["USDC"] (.netError "x")).requested = true := by
  have h := fetchPrices_429_cooldown (mkLivePriceOracle sampleOracleConfig) 1000
    ["USDC"] (.ok []) ["usd-coin"]
    (by norm_num [mkLivePriceOracle]) (by decide) rfl
  have hcool : (mkLivePriceOracle sampleOracleConfig).rateLimitCooldownMs = 300000 :=
    h.2.2.2.2.2.2 sampleOracleConfig rfl
  refine ⟨h.1, ?_, ?_⟩
  · exact (h.2.1 200000 ["USDC"] (.netError "x") (by rw [hcool]; norm_num)).1
  · exact h.2.2.2.2.2.1 301000 ["USDC"] (.netError "x") ["usd-coin"]
      (by rw [hcool]; norm_num) (by decide) rfl

/-- C9 counterexample: a stable-batch lookup served via the stale fallback
(both stable symbols cached but expired, transport failing) returns the
stale non-dollar prices yet leaves `staleFallbackHits` at 0 and increments
`stableFallbackHits` to 1, contradicting the claimed counter discipline. -/
theorem oracle_telemetry_counterexample :
    (getStablePricesUsd sampleExpiredPairOracleState 1000 (.netError "boom")).result
      = .ok [("USDC", 2), ("USDT", 3)]
    ∧ (getStablePricesUsd sampleExpiredPairOracleState 1000
        (.netError "boom")).state.telemetry.staleFallbackHits = 0
    ∧ (getStablePricesUsd sampleExpiredPairOracleState 1000
        (.netError "boom")).state.telemetry.stableFallbackHits = 1 := by
  have hsyms : stableSymbolsOf sampleExpiredPairOracleState = ["USDC", "USDT"] := by
    decide
  have hfresh : readCachedSnapshot sampleExpiredPairOracleState.cache
      ["USDC", "USDT"] false 1000 = none :=
    readCachedSnapshot_none _ _ _ _ "USDC" (by simp)
      (readCachedValue_expired _ _ ⟨2, 500⟩ _ (by decide) (by norm_num))
  have h1 : readCachedValue sampleExpiredPairOracleState.cache "USDC" true 1000
      = some 2 := readCachedValue_stale_hit _ _ ⟨2, 500⟩ _ (by decide)
  have h2 : readCachedValue sampleExpiredPairOracleState.cache "USDT" true 1000
      = some 3 := readCachedValue_stale_hit _ _ ⟨3, 500⟩ _ (by decide)
  obtain ⟨e, he⟩ := fetchPrices_netError_result sampleExpiredPairOracleState 1000
    ["USDC", "USDT"] "boom"
  have hstate := fetchPrices_netError_state sampleExpiredPairOracleState 1000
    ["USDC", "USDT"] "boom"
  have hstale : readCachedSnapshot
      (bumpFetchFailures sampleExpiredPairOracleState).cache ["USDC", "USDT"] true 1000
      = some [("USDC", 2), ("USDT", 3)] := by
    simp only [readCachedSnapshot]
    rw [show readCachedValue (bumpFetchFailures sampleExpiredPairOracleState).cache
        "USDC" true 1000 = some 2 from h1,
      show readCachedValue (bumpFetchFailures sampleExpiredPairOracleState).cache
        "USDT" true 1000 = some 3 from h2]
    rfl
  refine ⟨?_, ?_, ?_⟩ <;>
    simp only [getStablePricesUsd, hsyms, hfresh, he, hstate, hstale,
      warnWithCooldown_telemetry, writeCacheSnapshot_telemetry]
  · rfl
  · rfl

/-- C9 amended: the oracle keeps five distinct cumulative counters, returned
read-only by the snapshot getter; a single-symbol stale fallback increments
`staleFallbackHits` (plus `fetchFailures`), while a stable-batch fallback —
stale or hard alike — increments `stableFallbackHits` (plus
`fetchFailures`): the stable-batch stale path does not touch
`staleFallbackHits`, and `stableFallbackHits` also counts non-hard
fallbacks. -/
theorem oracle_telemetry_spec (st : OracleState) (nowMs : ℚ) (msg : String) :
    getTelemetrySnapshot st = st.telemetry
    ∧ (∀ symbol entry, normalizeSymbol symbol = symbol →
        mapLookup st.cache symbol = some entry → entry.expiresAt ≤ nowMs →
        (getPriceUsd st nowMs symbol (.netError msg)).state.telemetry
          = { st.telemetry with
              staleFallbackHits := st.telemetry.staleFallbackHits + 1
              fetchFailures := st.telemetry.fetchFailures + 1 })
    ∧ (∀ fallback,
        readCachedSnapshot st.cache (stableSymbolsOf st) false nowMs = none →
        readCachedSnapshot st.cache (stableSymbolsOf st) true nowMs = some fallback →
        (getStablePricesUsd st nowMs (.netError msg)).state.telemetry
          = { st.telemetry with
              stableFallbackHits := st.telemetry.stableFallbackHits + 1
              fetchFailures := st.telemetry.fetchFailures + 1 })
    ∧ (readCachedSnapshot st.cache (stableSymbolsOf st) true nowMs = none →
        (getStablePricesUsd st nowMs (.netError msg)).state.telemetry
          = { st.telemetry with
              stableFallbackHits := st.telemetry.stableFallbackHits + 1
              fetchFailures := st.telemetry.fetchFailures + 1 }) := by
  refine ⟨rfl, ?_, ?_, ?_⟩
  · intro symbol entry hcanon hlook hexp
    have hfresh : readCachedValue st.cache symbol false nowMs = none :=
      readCachedValue_expired _ _ _ _ (by rw [hcanon]; exact hlook) hexp
    obtain ⟨e, he⟩ := fetchPrices_netError_result st nowMs [symbol] msg
    have hstate := fetchPrices_netError_state st nowMs [symbol] msg
    have hstale : readCachedValue (bumpFetchFailures st).cache symbol true nowMs
        = some entry.value :=
      readCachedValue_stale_hit _ _ _ _ (by rw [hcanon]; exact hlook)
    simp only [getPriceUsd, hcanon, hfresh, he, hstate, hstale,
      warnWithCooldown_telemetry]
    rfl
  · intro fallback hfresh hstale0
    obtain ⟨e, he⟩ := fetchPrices_netError_result st nowMs (stableSymbolsOf st) msg
    have hstate := fetchPrices_netError_state st nowMs (stableSymbolsOf st) msg
    have hstale : readCachedSnapshot (bumpFetchFailures st).cache
        (stableSymbolsOf st) true nowMs = some fallback := hstale0
    simp only [getStablePricesUsd, hfresh, he, hstate, hstale,
      warnWithCooldown_telemetry, writeCacheSnapshot_telemetry]
    rfl
  · intro hstale0
    have hfresh : readCachedSnapshot st.cache (stableSymbolsOf st) false nowMs
        = none := readCachedSnapshot_false_none_of_true_none _ _ _ hstale0
    obtain ⟨e, he⟩ := fetchPrices_netError_result st nowMs (stableSymbolsOf st) msg
    have hstate := fetchPrices_netError_state st nowMs (stableSymbolsOf st) msg
    have hstale : readCachedSnapshot (bumpFetchFailures st).cache
        (stableSymbolsOf st) true nowMs = none := hstale0
    simp only [getStablePricesUsd, hfresh, he, hstate, hstale,
      warnWithCooldown_telemetry, writeCacheSnapshot_telemetry]
    rfl

/-- C9 amended witness: a concrete single-symbol stale fallback bumps the
stale counter while leaving the stable counter untouched. -/
theorem oracle_telemetry_spec_witness :
    (getPriceUsd sampleStaleOracleState 1000 "USDC"
        (.netError "boom")).state.telemetry
      = { cacheFreshHits := 0, staleFallbackHits := 1, stableFallbackHits := 0
          networkFetchSuccesses := 0, fetchFailures := 1 } := by
  have h := (oracle_telemetry_spec sampleStaleOracleState 1000 "boom").2.1
    "USDC" ⟨2, 500⟩ (by decide) (by decide) (by norm_num)
  exact h

/-! ### Claims about the migration report -/

/-- C3 counterexample: a transport-level fetch failure on the configured old
status endpoint aborts the whole run — no report is produced — although the
claim says an unreachable old endpoint is never fatal to report
generation. -/
theorem migration_unreachable_aborts_counterexample :
    runMigrationReport sampleOldVault sampleNewVault
      (some ("https://old.example/state", .netError "fetch failed: ECONNREFUSED"))
      none "0x7777777777777777777777777777777777777777"
      = .error "fetch failed: ECONNREFUSED" := rfl

/-- C3 amended: the `railway.old_service_reachable` check is never FAIL — it
is WARN when the endpoint is not configured or responds with a status
outside `[200, 500)` — and the report completes (with that check in its
check list) whenever each configured endpoint fetch yields an HTTP
response rather than a transport-level rejection; a transport-level
rejection propagates and aborts the report. -/
theorem migration_old_service_check_amended (oldSnapshot newSnapshot : VaultSnapshot)
    (newInput : Option (String × HttpOutcome)) (usdcAddress : String) :
    (∀ ep, (oldServiceReachableCheck ep).status ≠ .FAIL)
    ∧ (oldServiceReachableCheck none).status = .WARN
    ∧ (∀ ep : EndpointSnapshot, ¬ (200 ≤ ep.httpStatus ∧ ep.httpStatus < 500) →
        (oldServiceReachableCheck (some ep)).status = .WARN)
    ∧ (∀ oldInput : Option (String × HttpOutcome),
        (oldInput = none ∨ ∃ u s p, oldInput = some (u, .respond s p)) →
        (newInput = none ∨ ∃ u s p, newInput = some (u, .respond s p)) →
        ∃ report, runMigrationReport oldSnapshot newSnapshot oldInput newInput
            usdcAddress = .ok report
          ∧ oldServiceReachableCheck report.oldService ∈ report.checks) := by
  refine ⟨?_, rfl, ?_, ?_⟩
  · intro ep
    cases ep with
    | none => simp [oldServiceReachableCheck]
    | some e =>
      by_cases h : 200 ≤ e.httpStatus ∧ e.httpStatus < 500 <;>
        simp [oldServiceReachableCheck, h]
  · intro ep h
    simp [oldServiceReachableCheck, if_neg h]
  · intro oldInput hold hnew
    have hro : ∃ oldEp, resolveEndpoint oldInput = .ok oldEp := by
      rcases hold with h | ⟨u, s, p, h⟩ <;> subst h
      · exact ⟨none, rfl⟩
      · exact ⟨some _, rfl⟩
    have hrn : ∃ newEp, resolveEndpoint newInput = .ok newEp := by
      rcases hnew with h | ⟨u, s, p, h⟩ <;> subst h
      · exact ⟨none, rfl⟩
      · exact ⟨some _, rfl⟩
    obtain ⟨oldEp, hro⟩ := hro
    obtain ⟨newEp, hrn⟩ := hrn
    refine ⟨{ oldVault := oldSnapshot, newVault := newSnapshot, oldService := oldEp
              newService := newEp
              checks := buildChecks oldSnapshot newSnapshot oldEp newEp usdcAddress
              exitCode :=
                if (buildChecks oldSnapshot newSnapshot oldEp newEp usdcAddress).any
                    (fun c => decide (c.status = .FAIL)) then 1 else 0 }, ?_, ?_⟩
    · simp only [runMigrationReport, hro, hrn]
    · simp [buildChecks]

/-- C3 amended witness: a 503 response from the old endpoint yields WARN and
a completed report containing the old-service check. -/
theorem migration_old_service_check_amended_witness :
    (oldServiceReachableCheck (some
        { url := "https://old.example/state", httpStatus := 503, healthy := none
          ready := none, reason := none, snapshots := none, decisions := none
          tweets := none })).status = .WARN
    ∧ ∃ report, runMigrationReport sampleOldVault sampleNewVault
        (some ("https://old.example/state", .respond 503 none)) none
        "0x7777777777777777777777777777777777777777" = .ok report
      ∧ oldServiceReachableCheck report.oldService ∈ report.checks := by
  have h := migration_old_service_check_amended sampleOldVault sampleNewVault none
    "0x7777777777777777777777777777777777777777"
  exact ⟨h.2.2.1 _ (by norm_num),
    h.2.2.2 _ (Or.inr ⟨_, _, _, rfl⟩) (Or.inl rfl)⟩

end Sentryield
